import Mathlib

/-!
Verification of the FusionTutorialOverlay add-in (TeoEnKi/IDeA_Fusion360).

Shallow embedding of the core modules:
* `core/context_detector.py`   — workspace/environment enums, context snapshots,
  `matches_requirements`, `get_mismatch_details`;
* `core/redirect_templates.py` — static template table and `generate_redirect_step`;
* `core/context_poller.py`     — `ContextPollingManager` start/stop/tick state machine;
* `core/completion_detector.py`— timeline-growth classification in
  `TimelineEventHandler.notify`;
* `core/tutorial_manager.py`   — the `TutorialManager` cursor (namespace `CoreTM`);
* `FusionTutorialOverlay.py`   — the second, runtime `TutorialManager` (namespace
  `OverlayTM`) and `PaletteHTMLEventHandler._handle_navigation` (the navigation
  coordinator).

Host I/O (Fusion API reads, palette transport, file reads, screenshots) is made
explicit: context snapshots are passed as values, the file system is a function
from paths to optional parsed tutorial data, and messages sent to the palette
are collected in a list.  Python dicts are embedded as structures holding the
keys the code actually reads; opaque pass-through display fields of tutorial
steps are kept as plain strings.
-/

namespace ContextDetector

/-- Python's `str.lower()` on the ASCII enum values and requirement strings,
embedded as a structurally computable character map. -/
def pyLower (s : String) : String := ⟨s.data.map Char.toLower⟩

/-- Fusion 360 workspaces (`Workspace` enum in context_detector.py). -/
inductive Workspace where
  | DESIGN
  | RENDER
  | ANIMATION
  | SIMULATION
  | MANUFACTURE
  | DRAWING
  | GENERATIVE
  | UNKNOWN
deriving DecidableEq

/-- The `.value` string of each `Workspace` enum member. -/
def Workspace.value : Workspace → String
  | .DESIGN => "Design"
  | .RENDER => "Render"
  | .ANIMATION => "Animation"
  | .SIMULATION => "Simulation"
  | .MANUFACTURE => "Manufacture"
  | .DRAWING => "Drawing"
  | .GENERATIVE => "Generative"
  | .UNKNOWN => "Unknown"

/-- Fusion 360 design environments (`Environment` enum in context_detector.py). -/
inductive Environment where
  | SOLID
  | SURFACE
  | SHEET_METAL
  | PLASTIC
  | MESH
  | SKETCH
  | FORM
  | UNKNOWN
deriving DecidableEq

/-- The `.value` string of each `Environment` enum member. -/
def Environment.value : Environment → String
  | .SOLID => "Solid"
  | .SURFACE => "Surface"
  | .SHEET_METAL => "Sheet Metal"
  | .PLASTIC => "Plastic"
  | .MESH => "Mesh"
  | .SKETCH => "Sketch"
  | .FORM => "Form"
  | .UNKNOWN => "Unknown"

/-- `FusionContext` dataclass: an immutable snapshot of where the user is. -/
structure FusionContext where
  workspace : Workspace
  environment : Environment
  has_active_document : Bool
  has_active_sketch : Bool
  document_name : Option String := none
deriving DecidableEq

/-- A step requirement dict.  The detector reads the keys `workspace`,
`environment` (strings, `None`/absent collapsing to `none`), the booleans
`hasActiveDocument` / `hasActiveSketch` (`.get(key, False)`, so an absent key
is embedded as `false`), and the optional `reason` string used by
`get_mismatch_details`. -/
structure Requirement where
  workspace : Option String := none
  environment : Option String := none
  hasActiveDocument : Bool := false
  hasActiveSketch : Bool := false
  reason : Option String := none
deriving DecidableEq

/-- The empty requirement dict. -/
def Requirement.empty : Requirement := {}

/-- The body of `if required_workspace: if ... != ...: ...` — true when the
`workspace` key is truthy (present and non-empty) and differs from the
snapshot's workspace case-insensitively.  The identical expression appears in
both `matches_requirements` and `get_mismatch_details`. -/
def workspace_violation (ctx : FusionContext) (req : Requirement) : Bool :=
  match req.workspace with
  | some rw => rw != "" && pyLower ctx.workspace.value != pyLower rw
  | none => false

/-- Truthy-and-differs test for the `environment` key. -/
def environment_violation (ctx : FusionContext) (req : Requirement) : Bool :=
  match req.environment with
  | some re => re != "" && pyLower ctx.environment.value != pyLower re
  | none => false

/-- `requirements.get("hasActiveDocument", False)` demands a document the
snapshot does not have. -/
def document_violation (ctx : FusionContext) (req : Requirement) : Bool :=
  req.hasActiveDocument && !ctx.has_active_document

/-- `requirements.get("hasActiveSketch", False)` demands a sketch the snapshot
does not have. -/
def sketch_violation (ctx : FusionContext) (req : Requirement) : Bool :=
  req.hasActiveSketch && !ctx.has_active_sketch

/-- `matches_requirements` (context_detector.py:264).  Mirrors the Python
early-return chain: falsy requirement dict short-circuits to `True`, then each
present key may `return False`.  A string key whose value is falsy (absent or
the empty string) is skipped, exactly as `if required_workspace:` does. -/
def matches_requirements (ctx : FusionContext) (req : Requirement) : Bool :=
  if req = Requirement.empty then
    true
  else if workspace_violation ctx req then
    false
  else if environment_violation ctx req then
    false
  else if document_violation ctx req then
    false
  else if sketch_violation ctx req then
    false
  else
    true

/-- The value stored in the `current` / `required` slots of a mismatch entry:
either a string (workspace/environment) or a boolean (document/sketch). -/
inductive MVal where
  | s (v : String)
  | b (v : Bool)
deriving DecidableEq

/-- Python `str()` rendering of an `MVal` (used by redirect generation). -/
def MVal.pyStr : MVal → String
  | .s v => v
  | .b true => "True"
  | .b false => "False"

/-- One entry of the `mismatches` list built by `get_mismatch_details`. -/
structure Mismatch where
  type : String
  current : MVal
  required : MVal
  message : String
deriving DecidableEq

/-- The dict returned by `get_mismatch_details` (context_detector.py:307). -/
structure MismatchDetails where
  matched : Bool
  current : FusionContext
  required : Requirement
  mismatches : List Mismatch
  reason : String
deriving DecidableEq

/-- `get_mismatch_details` (context_detector.py:307): evaluates every key
independently, appending one mismatch entry per violated constraint in the
fixed order workspace, environment, document, sketch, and sets
`matched := len(mismatches) == 0`. -/
def get_mismatch_details (ctx : FusionContext) (req : Requirement) : MismatchDetails :=
  let wsMismatches : List Mismatch :=
    if workspace_violation ctx req then
      [{ type := "workspace", current := .s ctx.workspace.value,
         required := .s (req.workspace.getD ""),
         message := "Switch from " ++ ctx.workspace.value ++ " to " ++
                    req.workspace.getD "" ++ " workspace" }]
    else []
  let envMismatches : List Mismatch :=
    if environment_violation ctx req then
      [{ type := "environment", current := .s ctx.environment.value,
         required := .s (req.environment.getD ""),
         message := "Switch from " ++ ctx.environment.value ++ " to " ++
                    req.environment.getD "" ++ " environment" }]
    else []
  let docMismatches : List Mismatch :=
    if document_violation ctx req then
      [{ type := "document", current := .b false, required := .b true,
         message := "Open a document to continue" }]
    else []
  let sketchMismatches : List Mismatch :=
    if sketch_violation ctx req then
      [{ type := "sketch", current := .b false, required := .b true,
         message := "Enter sketch edit mode to continue" }]
    else []
  let mismatches := wsMismatches ++ envMismatches ++ docMismatches ++ sketchMismatches
  { matched := mismatches.length = 0
    current := ctx
    required := req
    mismatches := mismatches
    reason := req.reason.getD "This step requires a specific context" }

end ContextDetector

namespace RedirectTemplates

open ContextDetector

/-- One entry of a template's `ui_animations` list. -/
inductive UIAnim where
  | move (fromX fromY toX toY duration : Nat)
  | click (atX atY : Nat)
  | pause (duration : Nat)
deriving DecidableEq

/-- A pre-authored template record from `RedirectTemplateLibrary.TEMPLATES`. -/
structure Template where
  title : String
  instruction : String
  reference_image : String
  ui_animations : List UIAnim
deriving DecidableEq

/-- `TEMPLATES["switchEnvironment"]` keyed by target environment value.  Note
the table has no entry for "Plastic" (and none for "Unknown"). -/
def switchEnvironmentTemplates : String → Option Template
  | "Solid" => some
      { title := "Switch to Solid Environment"
        instruction := "Click the SOLID tab in the Design toolbar to access solid modeling tools."
        reference_image := "fusion_design_tabs.png"
        ui_animations := [.move 50 50 20 10 500, .click 20 10, .pause 300] }
  | "Surface" => some
      { title := "Switch to Surface Environment"
        instruction := "Click the SURFACE tab in the Design toolbar to access surface modeling tools."
        reference_image := "fusion_design_tabs.png"
        ui_animations := [.move 50 50 35 10 500, .click 35 10, .pause 300] }
  | "Sheet Metal" => some
      { title := "Switch to Sheet Metal Environment"
        instruction := "Click the SHEET METAL tab in the Design toolbar to access sheet metal tools."
        reference_image := "fusion_design_tabs.png"
        ui_animations := [.move 50 50 50 10 500, .click 50 10, .pause 300] }
  | "Mesh" => some
      { title := "Switch to Mesh Environment"
        instruction := "Click the MESH tab in the Design toolbar to access mesh editing tools."
        reference_image := "fusion_design_tabs.png"
        ui_animations := [.move 50 50 65 10 500, .click 65 10, .pause 300] }
  | "Sketch" => some
      { title := "Enter Sketch Mode"
        instruction := "Double-click on a sketch in the timeline or browser, or click Create Sketch to start a new sketch."
        reference_image := "fusion_sketch_mode.png"
        ui_animations := [.move 50 50 30 80 500, .click 30 80, .click 30 80, .pause 300] }
  | "Form" => some
      { title := "Switch to Form (T-Spline) Environment"
        instruction := "Click Create Form in the toolbar, or double-click an existing Form feature."
        reference_image := "fusion_form_mode.png"
        ui_animations := [.move 50 50 80 10 500, .click 80 10, .pause 300] }
  | _ => none

/-- `TEMPLATES["switchWorkspace"]` keyed by target workspace value.  Note the
table has no entry for "Animation" or "Generative". -/
def switchWorkspaceTemplates : String → Option Template
  | "Design" => some
      { title := "Switch to Design Workspace"
        instruction := "Click the workspace dropdown at the top-left and select 'Design'."
        reference_image := "fusion_workspace_selector.png"
        ui_animations := [.move 50 50 10 5 500, .click 10 5, .pause 400, .move 10 5 10 20 300, .click 10 20] }
  | "Render" => some
      { title := "Switch to Render Workspace"
        instruction := "Click the workspace dropdown at the top-left and select 'Render'."
        reference_image := "fusion_workspace_selector.png"
        ui_animations := [.move 50 50 10 5 500, .click 10 5, .pause 400, .move 10 5 10 30 300, .click 10 30] }
  | "Manufacture" => some
      { title := "Switch to Manufacture Workspace"
        instruction := "Click the workspace dropdown at the top-left and select 'Manufacture'."
        reference_image := "fusion_workspace_selector.png"
        ui_animations := [.move 50 50 10 5 500, .click 10 5, .pause 400, .move 10 5 10 40 300, .click 10 40] }
  | "Simulation" => some
      { title := "Switch to Simulation Workspace"
        instruction := "Click the workspace dropdown at the top-left and select 'Simulation'."
        reference_image := "fusion_workspace_selector.png"
        ui_animations := [.move 50 50 10 5 500, .click 10 5, .pause 400, .move 10 5 10 50 300, .click 10 50] }
  | "Drawing" => some
      { title := "Switch to Drawing Workspace"
        instruction := "Click the workspace dropdown at the top-left and select 'Drawing'."
        reference_image := "fusion_workspace_selector.png"
        ui_animations := [.move 50 50 10 5 500, .click 10 5, .pause 400, .move 10 5 10 60 300, .click 10 60] }
  | _ => none

/-- `TEMPLATES["openDocument"]`, keyed only by "default". -/
def openDocumentTemplates : String → Option Template
  | "default" => some
      { title := "Open a Document"
        instruction := "Open an existing design or create a new one from File > New Design."
        reference_image := "fusion_new_design.png"
        ui_animations := [.move 50 50 5 5 500, .click 5 5, .pause 300] }
  | _ => none

/-- The `{type, value}` dicts stored in a redirect step's current/required
context slots. -/
structure ContextRef where
  type : String
  value : String
deriving DecidableEq

/-- The `RedirectStep` dataclass (redirect_templates.py:10), with its
dataclass defaults. -/
structure RedirectStep where
  step_type : String := "redirect"
  title : String := ""
  instruction : String := ""
  reference_image : String := ""
  current_context : ContextRef
  required_context : ContextRef
  ui_animations : List UIAnim := []
  original_step_index : Int := 0
  reason : String := ""
deriving DecidableEq

/-- The `TEMPLATES.get(redirect_type, {}).get(key)` lookup performed for the
first mismatch, branching on the mismatch `type` exactly as the Python
if/elif chain does.  A dict lookup with a boolean key never hits the
string-keyed tables. -/
def template_for (m : Mismatch) : Option Template :=
  match m.type with
  | "workspace" =>
      match m.required with
      | .s v => switchWorkspaceTemplates v
      | .b _ => none
  | "environment" =>
      match m.required with
      | .s v => switchEnvironmentTemplates v
      | .b _ => none
  | "document" => openDocumentTemplates "default"
  | "sketch" => switchEnvironmentTemplates "Sketch"
  | _ => none

/-- `RedirectTemplateLibrary.generate_redirect_step` (redirect_templates.py:203).
Returns `none` when `matched` (or when the mismatch list is empty); otherwise
resolves a template for the FIRST mismatch, falling back to a generic step
built from that mismatch's own message when no template matches. -/
def generate_redirect_step (d : MismatchDetails) (original_step_index : Int) :
    Option RedirectStep :=
  if d.matched then none
  else
    match d.mismatches with
    | [] => none
    | m :: _ =>
      match template_for m with
      | none => some
          { title := "Navigate to " ++ m.required.pyStr
            instruction := m.message
            current_context := { type := m.type, value := m.current.pyStr }
            required_context := { type := m.type, value := m.required.pyStr }
            original_step_index := original_step_index
            reason := d.reason }
      | some tpl => some
          { title := tpl.title
            instruction := tpl.instruction
            reference_image := tpl.reference_image
            current_context := { type := m.type, value := m.current.pyStr }
            required_context := { type := m.type, value := m.required.pyStr }
            ui_animations := tpl.ui_animations
            original_step_index := original_step_index
            reason := d.reason }

end RedirectTemplates

namespace ContextPoller

open ContextDetector

/-- The mutable fields of `ContextPollingManager` that the sequential protocol
touches.  `gen` identifies the callback currently stored in
`_on_context_matched`: every `start_polling` stores a fresh callback, so each
poll is tagged with a fresh generation number. -/
structure PollerState where
  polling : Bool
  required : Requirement
  interval_ms : Nat
  gen : Nat
deriving DecidableEq

/-- A freshly constructed `ContextPollingManager` (interval 0.5s = 500ms). -/
def initState : PollerState :=
  { polling := false, required := Requirement.empty, interval_ms := 500, gen := 0 }

/-- `stop_polling` (context_poller.py:87): clears the polling flag, the
requirement and the callbacks; idempotent. -/
def stop_polling (st : PollerState) : PollerState :=
  { st with polling := false, required := Requirement.empty }

/-- `start_polling` (context_poller.py:52): stops a previous poll first, stores
the requirement and a fresh callback, updates the interval only when
`interval_ms` is truthy, and raises the polling flag. -/
def start_polling (st : PollerState) (req : Requirement) (interval_ms : Option Nat) :
    PollerState :=
  let st := if st.polling then stop_polling st else st
  let st := { st with required := req, gen := st.gen + 1 }
  let st :=
    match interval_ms with
    | some i => if i ≠ 0 then { st with interval_ms := i } else st
    | none => st
  { st with polling := true }

/-- One `_check_context` tick (context_poller.py:146) against snapshot `ctx`.
Returns the generation of the `on_matched` callback it fires, if any: a tick
does nothing when not polling; on a requirement match it clears the polling
flag and fires the stored callback exactly here. -/
def check_context (st : PollerState) (ctx : FusionContext) :
    Option Nat × PollerState :=
  if !st.polling then (none, st)
  else if matches_requirements ctx st.required then
    (some st.gen, { st with polling := false })
  else (none, st)

/-- The sequential operations a client can drive the poller with. -/
inductive PollOp where
  | start (req : Requirement) (interval_ms : Option Nat)
  | stop
  | tick (ctx : FusionContext)

/-- Effect of one operation: the list (empty or singleton) of `on_matched`
generations fired, and the successor state. -/
def stepOp (st : PollerState) : PollOp → List Nat × PollerState
  | .start req i => ([], start_polling st req i)
  | .stop => ([], stop_polling st)
  | .tick ctx =>
      match check_context st ctx with
      | (some g, st') => ([g], st')
      | (none, st') => ([], st')

/-- Run a sequence of poller operations, concatenating the fired
`on_matched` generations in order. -/
def runOps (st : PollerState) : List PollOp → List Nat × PollerState
  | [] => ([], st)
  | op :: rest =>
    let r := stepOp st op
    let r2 := runOps r.2 rest
    (r.1 ++ r2.1, r2.2)

end ContextPoller

namespace CompletionDetector

/-- `CompletionEventType` enum (completion_detector.py:28). -/
inductive CompletionEventType where
  | SKETCH_CREATED
  | SKETCH_FINISHED
  | FEATURE_CREATED
  | EXTRUDE_CREATED
  | FILLET_CREATED
  | CHAMFER_CREATED
  | REVOLVE_CREATED
  | SWEEP_CREATED
  | SHELL_CREATED
  | BODY_CREATED
  | COMPONENT_CREATED
  | SELECTION_CHANGED
  | ACTIVE_DOCUMENT_CHANGED
  | COMMAND_STARTED
  | COMMAND_TERMINATED
deriving DecidableEq

/-- `COMMAND_MAP` (completion_detector.py:65): Fusion command ids to semantic
labels, as an association list. -/
def COMMAND_MAP : List (String × String) :=
  [("SketchCreate", "sketch"),
   ("SketchActivate", "sketch"),
   ("SketchCenterRectangle", "sketch_rectangle"),
   ("SketchRectangle", "sketch_rectangle"),
   ("SketchLine", "sketch_line"),
   ("SketchCircle", "sketch_circle"),
   ("SketchArc", "sketch_arc"),
   ("Sketch3PointArc", "sketch_arc"),
   ("SketchFittedSpline", "sketch_spline"),
   ("SketchSpline", "sketch_spline"),
   ("SketchDimension", "sketch_dimension"),
   ("SketchConstraint", "sketch_constraint"),
   ("FinishSketch", "finish_sketch"),
   ("Extrude", "extrude"),
   ("FilletEdge", "fillet"),
   ("ChamferEdge", "chamfer"),
   ("Revolve", "revolve"),
   ("Sweep", "sweep"),
   ("Shell", "shell"),
   ("Loft", "loft"),
   ("Hole", "hole")]

/-- A timeline entry's entity as the handler reads it: its concrete type name,
its `name` attribute when present (`getattr(entity, 'name', ...)`), and its
health state as a boolean when the attribute exists. -/
structure TimelineEntity where
  type_name : String
  name : Option String := none
  healthy : Option Bool := none
deriving DecidableEq

/-- The `additional_info` dict of an event; fields absent from a given event
are `none`. -/
structure AdditionalInfo where
  name : Option String := none
  healthy : Option Bool := none
  commandId : Option String := none
  mappedType : Option String := none
deriving DecidableEq

/-- `CompletionEvent` dataclass (completion_detector.py:48). -/
structure CompletionEvent where
  event_type : CompletionEventType
  entity_name : String := ""
  entity_id : String := ""
  additional_info : AdditionalInfo := {}
deriving DecidableEq

/-- `TimelineEventHandler._get_event_type` (completion_detector.py:190): the
static entity-type table, defaulting to the generic `FEATURE_CREATED`. -/
def get_event_type (type_name : String) : CompletionEventType :=
  match type_name with
  | "Sketch" => .SKETCH_CREATED
  | "ExtrudeFeature" => .EXTRUDE_CREATED
  | "FilletFeature" => .FILLET_CREATED
  | "ChamferFeature" => .CHAMFER_CREATED
  | "RevolveFeature" => .REVOLVE_CREATED
  | "SweepFeature" => .SWEEP_CREATED
  | "ShellFeature" => .SHELL_CREATED
  | _ => .FEATURE_CREATED

/-- The event built for the newly appended timeline entry at index `i`
(completion_detector.py:145-163), carrying entity name, `_get_entity_info`
health metadata and the terminating command id. -/
def entry_event (i : Nat) (e : TimelineEntity) (command_id : String) : CompletionEvent :=
  { event_type := get_event_type e.type_name
    entity_name := e.name.getD e.type_name
    entity_id := toString i
    additional_info := { name := e.name, healthy := e.healthy, commandId := some command_id } }

/-- The single `COMMAND_TERMINATED` event fired when the timeline did not grow
but the command id is recognized (completion_detector.py:173-183). -/
def terminated_event (command_id : String) : CompletionEvent :=
  { event_type := .COMMAND_TERMINATED
    entity_name := (COMMAND_MAP.lookup command_id).getD command_id
    additional_info := { commandId := some command_id,
                         mappedType := some ((COMMAND_MAP.lookup command_id).getD "") } }

/-- The `for i in range(self._last_timeline_count, current_count)` loop:
emits one event per index, reading `timeline.item(i)`. -/
def collect_new (timeline : List TimelineEntity) (command_id : String) :
    Nat → Nat → List CompletionEvent
  | _, 0 => []
  | i, Nat.succ fuel =>
      match timeline.get? i with
      | some e => entry_event i e command_id :: collect_new timeline command_id (i + 1) fuel
      | none => collect_new timeline command_id (i + 1) fuel

/-- `TimelineEventHandler.notify` (completion_detector.py:123) with an active
design, as a function of the last observed timeline length, the design's
current timeline and the terminated command id.  Returns the emitted events
and the updated `_last_timeline_count`. -/
def notify (last_count : Nat) (timeline : List TimelineEntity) (command_id : String) :
    List CompletionEvent × Nat :=
  let current_count := timeline.length
  if last_count < current_count then
    (collect_new timeline command_id last_count (current_count - last_count), current_count)
  else if (COMMAND_MAP.lookup command_id).isSome then
    ([terminated_event command_id], last_count)
  else
    ([], last_count)

end CompletionDetector

namespace TutorialData

open ContextDetector

/-- A tutorial step as loaded from the tutorial document.  The cursor logic
reads only `requires`; the pass-through display fields (title, instruction,
annotation and animation payloads, qc checks, ...) are carried opaquely by the
identity of the step value and summarized here by the authored text fields. -/
structure TutorialStep where
  step_id : String := ""
  step_number : Nat := 0
  title : String := ""
  instruction : String := ""
  requires : Requirement := {}
deriving DecidableEq

/-- A parsed tutorial document: `{tutorialId, title, description, steps}`. -/
structure Tutorial where
  tutorial_id : String := ""
  title : String := ""
  description : String := ""
  steps : List TutorialStep := []
deriving DecidableEq

/-- The payload every accessor returns: the step's own fields merged with
`currentIndex`, `totalSteps` and `tutorialTitle`. -/
structure StepPayload where
  step : TutorialStep
  currentIndex : Nat
  totalSteps : Nat
  tutorialTitle : String
deriving DecidableEq

/-- The file system as seen by `load_from_file`: paths that exist map to their
parsed tutorial JSON. -/
def FileSystem := String → Option Tutorial

end TutorialData

namespace CoreTM

open TutorialData

/-- `TutorialManager` state (core/tutorial_manager.py:78). -/
structure State where
  current_tutorial : Option Tutorial := none
  current_step_index : Nat := 0
deriving DecidableEq

/-- A freshly constructed manager. -/
def initState : State := {}

/-- `get_current_step_payload` (core/tutorial_manager.py:99): `Tutorial.get_step`
is `steps[index]` guarded by `0 <= index < len(steps)`, which for a natural
index is exactly `List.get?`; `totalSteps` is `len(steps)`. -/
def get_current_step_payload (st : State) : Option StepPayload :=
  match st.current_tutorial with
  | none => none
  | some t =>
      match t.steps.get? st.current_step_index with
      | none => none
      | some s =>
          some { step := s, currentIndex := st.current_step_index,
                 totalSteps := t.steps.length, tutorialTitle := t.title }

/-- `load_tutorial` (core/tutorial_manager.py:85): replaces the tutorial and
resets the cursor to 0. -/
def load_tutorial (_st : State) (d : Tutorial) : Option StepPayload × State :=
  let st' : State := { current_tutorial := some d, current_step_index := 0 }
  (get_current_step_payload st', st')

/-- `load_from_file` (core/tutorial_manager.py:91): returns `None` without
touching any state when the path does not exist; otherwise parses and loads. -/
def load_from_file (fs : FileSystem) (st : State) (path : String) :
    Option StepPayload × State :=
  match fs path with
  | none => (none, st)
  | some d => load_tutorial st d

/-- `next_step` (core/tutorial_manager.py:114).  The Python guard
`index < total_steps - 1` on ints agrees with truncated Nat subtraction
because the index is non-negative. -/
def next_step (st : State) : Option StepPayload × State :=
  let st' : State :=
    match st.current_tutorial with
    | some t =>
        if st.current_step_index < t.steps.length - 1 then
          { st with current_step_index := st.current_step_index + 1 }
        else st
    | none => st
  (get_current_step_payload st', st')

/-- `prev_step` (core/tutorial_manager.py:120). -/
def prev_step (st : State) : Option StepPayload × State :=
  let st' : State :=
    if st.current_step_index > 0 then
      { st with current_step_index := st.current_step_index - 1 }
    else st
  (get_current_step_payload st', st')

/-- `go_to_step` (core/tutorial_manager.py:126); the requested index is a raw
(possibly negative) integer from the caller. -/
def go_to_step (st : State) (index : Int) : Option StepPayload × State :=
  let st' : State :=
    match st.current_tutorial with
    | some t =>
        if 0 ≤ index ∧ index < (t.steps.length : Int) then
          { st with current_step_index := index.toNat }
        else st
    | none => st
  (get_current_step_payload st', st')

/-- A mutator call on the manager, for reasoning about operation sequences. -/
inductive Op where
  | load (d : Tutorial)
  | next
  | prev
  | goTo (index : Int)

/-- State effect of one mutator (payloads discarded). -/
def applyOp (st : State) : Op → State
  | .load d => (load_tutorial st d).2
  | .next => (next_step st).2
  | .prev => (prev_step st).2
  | .goTo i => (go_to_step st i).2

/-- Run a sequence of mutators. -/
def runOps (st : State) (ops : List Op) : State :=
  ops.foldl applyOp st

/-- `len(steps)` of the loaded tutorial, 0 when none is loaded. -/
def totalStepsOf (st : State) : Nat :=
  match st.current_tutorial with
  | some t => t.steps.length
  | none => 0

end CoreTM

namespace OverlayTM

open TutorialData

/-- The runtime `TutorialManager` defined inside FusionTutorialOverlay.py:115,
which additionally caches `total_steps`. -/
structure State where
  current_tutorial : Option Tutorial := none
  current_step_index : Nat := 0
  total_steps : Nat := 0
deriving DecidableEq

/-- A freshly constructed manager. -/
def initState : State := {}

/-- `get_current_step` (FusionTutorialOverlay.py:136): returns the step dict
copy augmented with `currentIndex`, the cached `total_steps` and the
tutorial title. -/
def get_current_step (st : State) : Option StepPayload :=
  match st.current_tutorial with
  | none => none
  | some t =>
      match t.steps.get? st.current_step_index with
      | none => none
      | some s =>
          some { step := s, currentIndex := st.current_step_index,
                 totalSteps := st.total_steps, tutorialTitle := t.title }

/-- `load_tutorial` (FusionTutorialOverlay.py:123). -/
def load_tutorial (_st : State) (d : Tutorial) : Option StepPayload × State :=
  let st' : State :=
    { current_tutorial := some d, current_step_index := 0, total_steps := d.steps.length }
  (get_current_step st', st')

/-- `load_from_file` (FusionTutorialOverlay.py:130): opens the file with no
existence check, so a missing path raises `FileNotFoundError` to the caller
(embedded as `Except.error`); on success it delegates to `load_tutorial`. -/
def load_from_file (fs : FileSystem) (st : State) (path : String) :
    Except String (Option StepPayload × State) :=
  match fs path with
  | none => .error "FileNotFoundError"
  | some d => .ok (load_tutorial st d)

/-- `next_step` (FusionTutorialOverlay.py:149), guarded by the cached
`total_steps`. -/
def next_step (st : State) : Option StepPayload × State :=
  let st' : State :=
    if st.current_step_index < st.total_steps - 1 then
      { st with current_step_index := st.current_step_index + 1 }
    else st
  (get_current_step st', st')

/-- `prev_step` (FusionTutorialOverlay.py:155). -/
def prev_step (st : State) : Option StepPayload × State :=
  let st' : State :=
    if st.current_step_index > 0 then
      { st with current_step_index := st.current_step_index - 1 }
    else st
  (get_current_step st', st')

/-- `go_to_step` (FusionTutorialOverlay.py:161). -/
def go_to_step (st : State) (index : Int) : Option StepPayload × State :=
  let st' : State :=
    if 0 ≤ index ∧ index < (st.total_steps : Int) then
      { st with current_step_index := index.toNat }
    else st
  (get_current_step st', st')

end OverlayTM

namespace Coordinator

open ContextDetector TutorialData

/-- A navigation request: the `next` / `prev` / `goToStep{index}` palette
actions. -/
inductive NavDir where
  | next
  | prev
  | goToStep (index : Int)

/-- A message pushed to the palette via `sendInfoToHTML` while handling a
navigation request. -/
inductive PaletteMsg where
  | contextWarning (mismatch : MismatchDetails) (targetIndex : Int)
deriving DecidableEq

/-- The JSON response returned by `_handle_navigation`. -/
inductive NavResponse where
  | updateStep (step : StepPayload)
  | error (message : String)
deriving DecidableEq

/-- Resolution of the target step index from the request direction
(FusionTutorialOverlay.py:560-565): `next` is cursor+1, `prev` is cursor-1
(possibly -1), `goToStep` is the raw requested index. -/
def navTarget (tm : OverlayTM.State) : NavDir → Int
  | .next => (tm.current_step_index : Int) + 1
  | .prev => (tm.current_step_index : Int) - 1
  | .goToStep i => i

/-- The direction dispatch of the final cursor move
(FusionTutorialOverlay.py:618-624): `next_step`, `prev_step`, or
`go_to_step(target_index)`. -/
def navStep (tm : OverlayTM.State) : NavDir → Option TutorialData.StepPayload × OverlayTM.State
  | .next => OverlayTM.next_step tm
  | .prev => OverlayTM.prev_step tm
  | .goToStep i => OverlayTM.go_to_step tm i

/-- Everything `_handle_navigation` produces: palette messages sent during the
call, the returned response, and the successor tutorial-manager and poller
states. -/
structure HandlerResult where
  sent : List PaletteMsg
  response : NavResponse
  tm : OverlayTM.State
  poller : ContextPoller.PollerState
deriving DecidableEq

/-- `PaletteHTMLEventHandler._handle_navigation` (FusionTutorialOverlay.py:551)
with the core modules loaded and detector/poller/palette available.  The fresh
context snapshot obtained from `get_current_context()` is the parameter `ctx`.
Host side effects of the entered step (`_execute_fusion_actions`,
`_auto_capture_viewport`) touch neither the cursor, the poller nor the
response and are elided.  When no tutorial is loaded, the attribute access on
`None` raises and `notify`'s catch-all turns it into an error response with
no state change. -/
def handle_navigation (tm : OverlayTM.State) (poller : ContextPoller.PollerState)
    (ctx : FusionContext) (dir : NavDir) : HandlerResult :=
  match tm.current_tutorial with
  | none => { sent := [], response := .error "AttributeError", tm := tm, poller := poller }
  | some t =>
    let target : Int := navTarget tm dir
    let steps := t.steps
    if target < 0 ∨ (steps.length : Int) ≤ target then
      { sent := [], response := .error "Invalid step index", tm := tm, poller := poller }
    else
      match steps.get? target.toNat with
      | none =>
          { sent := [], response := .error "Invalid step index", tm := tm, poller := poller }
      | some target_step =>
        let req := target_step.requires
        let poller1 :=
          if poller.polling then ContextPoller.stop_polling poller else poller
        let warn : Bool :=
          !(req == Requirement.empty) && !(matches_requirements ctx req)
        let sent : List PaletteMsg :=
          if warn then [.contextWarning (get_mismatch_details ctx req) target] else []
        let poller2 :=
          if warn then ContextPoller.start_polling poller1 req (some 1000) else poller1
        let navres : Option StepPayload × OverlayTM.State := navStep tm dir
        match navres.1 with
        | some payload =>
            { sent := sent, response := .updateStep payload, tm := navres.2, poller := poller2 }
        | none =>
            { sent := sent, response := .error "Navigation failed", tm := navres.2, poller := poller2 }

end Coordinator

/-!
Theorems.  Claim theorems are named `claim_Cn...`; the surrounding lemmas are
shared supporting facts.
-/

namespace ContextDetector

theorem workspace_violation_empty (ctx : FusionContext) :
    workspace_violation ctx Requirement.empty = false := rfl

theorem environment_violation_empty (ctx : FusionContext) :
    environment_violation ctx Requirement.empty = false := rfl

theorem document_violation_empty (ctx : FusionContext) :
    document_violation ctx Requirement.empty = false := rfl

theorem sketch_violation_empty (ctx : FusionContext) :
    sketch_violation ctx Requirement.empty = false := rfl

/-- `matches_requirements` is the conjunction of the four per-key checks: the
empty-dict early return agrees with it because the empty requirement violates
nothing. -/
theorem matches_requirements_eq_conj (ctx : FusionContext) (req : Requirement) :
    matches_requirements ctx req =
      (!workspace_violation ctx req && !environment_violation ctx req &&
       !document_violation ctx req && !sketch_violation ctx req) := by
  by_cases h0 : req = Requirement.empty
  · subst h0
    simp [matches_requirements, workspace_violation_empty, environment_violation_empty,
          document_violation_empty, sketch_violation_empty]
  · by_cases h1 : workspace_violation ctx req <;>
    by_cases h2 : environment_violation ctx req <;>
    by_cases h3 : document_violation ctx req <;>
    by_cases h4 : sketch_violation ctx req <;>
    simp [matches_requirements, h0, h1, h2, h3, h4]

/-- The mismatch list of `get_mismatch_details` is empty exactly when none of
the four per-key checks is violated. -/
theorem get_mismatch_details_mismatches_nil_iff (ctx : FusionContext) (req : Requirement) :
    (get_mismatch_details ctx req).mismatches = [] ↔
      (workspace_violation ctx req = false ∧ environment_violation ctx req = false ∧
       document_violation ctx req = false ∧ sketch_violation ctx req = false) := by
  by_cases h1 : workspace_violation ctx req <;>
  by_cases h2 : environment_violation ctx req <;>
  by_cases h3 : document_violation ctx req <;>
  by_cases h4 : sketch_violation ctx req <;>
  simp [get_mismatch_details, h1, h2, h3, h4]

/-- Claim C2: for every requirement R and context snapshot S evaluated against
the same snapshot, `matches_requirements(S,R)` is true exactly when the
`mismatches` list of `get_mismatch_details(S,R)` is empty, and the `matched`
field of the latter equals the emptiness of its `mismatches` list. -/
theorem claim_C2_matches_iff_no_mismatch (ctx : FusionContext) (req : Requirement) :
    (matches_requirements ctx req = true ↔ (get_mismatch_details ctx req).mismatches = []) ∧
    (get_mismatch_details ctx req).matched = (get_mismatch_details ctx req).mismatches.isEmpty := by
  constructor
  · rw [matches_requirements_eq_conj, get_mismatch_details_mismatches_nil_iff]
    by_cases h1 : workspace_violation ctx req <;>
    by_cases h2 : environment_violation ctx req <;>
    by_cases h3 : document_violation ctx req <;>
    by_cases h4 : sketch_violation ctx req <;>
    simp [h1, h2, h3, h4]
  · by_cases h1 : workspace_violation ctx req <;>
    by_cases h2 : environment_violation ctx req <;>
    by_cases h3 : document_violation ctx req <;>
    by_cases h4 : sketch_violation ctx req <;>
    simp [get_mismatch_details, h1, h2, h3, h4]

end ContextDetector

namespace ContextDetector

/-- Claim C4: the empty requirement always matches; a non-empty requirement is
the conjunction of the independent per-key checks; the workspace and
environment string comparisons are case-insensitive; and a false-valued (or
absent, which `.get(key, False)` makes equal to false) boolean key imposes no
constraint, while a true-valued one requires the corresponding context bit. -/
theorem claim_C4_and_semantics (ctx : FusionContext) (req : Requirement) :
    matches_requirements ctx Requirement.empty = true ∧
    matches_requirements ctx req =
      (!workspace_violation ctx req && !environment_violation ctx req &&
       !document_violation ctx req && !sketch_violation ctx req) ∧
    (∀ rw rw', rw ≠ "" → rw' ≠ "" → pyLower rw = pyLower rw' →
       matches_requirements ctx { req with workspace := some rw } =
       matches_requirements ctx { req with workspace := some rw' }) ∧
    (∀ re re', re ≠ "" → re' ≠ "" → pyLower re = pyLower re' →
       matches_requirements ctx { req with environment := some re } =
       matches_requirements ctx { req with environment := some re' }) ∧
    (∀ b, matches_requirements { ctx with has_active_document := b }
            { req with hasActiveDocument := false } =
          matches_requirements ctx { req with hasActiveDocument := false }) ∧
    (∀ b, matches_requirements { ctx with has_active_sketch := b }
            { req with hasActiveSketch := false } =
          matches_requirements ctx { req with hasActiveSketch := false }) ∧
    (matches_requirements ctx { req with hasActiveDocument := true } = true →
       ctx.has_active_document = true) ∧
    (matches_requirements ctx { req with hasActiveSketch := true } = true →
       ctx.has_active_sketch = true) := by
  refine ⟨?_, matches_requirements_eq_conj ctx req, ?_, ?_, ?_, ?_, ?_, ?_⟩
  · simp [matches_requirements]
  · intro rw rw' hrw hrw' hlow
    rw [matches_requirements_eq_conj, matches_requirements_eq_conj]
    have h1 : (rw != "") = true := by simp [hrw]
    have h2 : (rw' != "") = true := by simp [hrw']
    simp only [workspace_violation, environment_violation, document_violation,
               sketch_violation, hlow, h1, h2]
  · intro re re' hre hre' hlow
    rw [matches_requirements_eq_conj, matches_requirements_eq_conj]
    have h1 : (re != "") = true := by simp [hre]
    have h2 : (re' != "") = true := by simp [hre']
    simp only [workspace_violation, environment_violation, document_violation,
               sketch_violation, hlow, h1, h2]
  · intro b
    rw [matches_requirements_eq_conj, matches_requirements_eq_conj]
    simp [workspace_violation, environment_violation, document_violation, sketch_violation]
  · intro b
    rw [matches_requirements_eq_conj, matches_requirements_eq_conj]
    simp [workspace_violation, environment_violation, document_violation, sketch_violation]
  · rw [matches_requirements_eq_conj]
    by_cases hd : ctx.has_active_document <;>
    simp [document_violation, hd]
  · rw [matches_requirements_eq_conj]
    by_cases hs : ctx.has_active_sketch <;>
    simp [sketch_violation, hs]

/-- Witness for claim C4 at a concrete snapshot and requirement: the Sketch
requirement is compared case-insensitively against a Solid snapshot and a
true-valued `hasActiveSketch` key restricts. -/
theorem claim_C4_witness :
    (matches_requirements
       { workspace := .DESIGN, environment := .SKETCH,
         has_active_document := true, has_active_sketch := true }
       { environment := some "SKETCH" } =
     matches_requirements
       { workspace := .DESIGN, environment := .SKETCH,
         has_active_document := true, has_active_sketch := true }
       { environment := some "sketch" }) ∧
    (matches_requirements
       { workspace := .DESIGN, environment := .SOLID,
         has_active_document := true, has_active_sketch := false }
       { hasActiveSketch := true } = true →
     ({ workspace := .DESIGN, environment := .SOLID,
        has_active_document := true, has_active_sketch := false } :
        FusionContext).has_active_sketch = true) := by
  constructor
  · exact (claim_C4_and_semantics
      { workspace := .DESIGN, environment := .SKETCH,
        has_active_document := true, has_active_sketch := true }
      { environment := none }).2.2.2.1 "SKETCH" "sketch"
      (by decide) (by decide) (by decide)
  · exact (claim_C4_and_semantics
      { workspace := .DESIGN, environment := .SOLID,
        has_active_document := true, has_active_sketch := false }
      { hasActiveSketch := false }).2.2.2.2.2.2.2

end ContextDetector

namespace RedirectTemplates

open ContextDetector

/-- Claim C8: under the documented MismatchDetails invariant
`matched == (mismatches is empty)`, `generate_redirect_step` returns null
exactly on matched details; for unmatched details it always returns a
redirect step, built from the FIRST mismatch only (later entries are
ignored), using the static template for (type, required value) when one
exists and otherwise synthesizing a generic step from that mismatch's own
message. -/
theorem claim_C8_redirect_generation (d : MismatchDetails) (idx : Int)
    (hinv : d.matched = d.mismatches.isEmpty) :
    (d.matched = true → generate_redirect_step d idx = none) ∧
    (d.matched = false → (generate_redirect_step d idx).isSome = true) ∧
    (∀ m rest, d.matched = false → d.mismatches = m :: rest →
       ∃ rs, generate_redirect_step d idx = some rs ∧
         (∀ rest', generate_redirect_step { d with mismatches := m :: rest' } idx = some rs) ∧
         rs.original_step_index = idx ∧
         rs.reason = d.reason ∧
         (template_for m = none →
            rs = { title := "Navigate to " ++ m.required.pyStr
                   instruction := m.message
                   current_context := { type := m.type, value := m.current.pyStr }
                   required_context := { type := m.type, value := m.required.pyStr }
                   original_step_index := idx
                   reason := d.reason }) ∧
         (∀ tpl, template_for m = some tpl →
            rs.title = tpl.title ∧ rs.instruction = tpl.instruction ∧
            rs.reference_image = tpl.reference_image ∧
            rs.ui_animations = tpl.ui_animations)) := by
  refine ⟨fun hm => ?_, fun hm => ?_, fun m rest hm hl => ?_⟩
  · simp [generate_redirect_step, hm]
  · have hne : d.mismatches.isEmpty = false := by rw [← hinv]; exact hm
    cases hl : d.mismatches with
    | nil => rw [hl] at hne; simp at hne
    | cons m rest =>
        cases htpl : template_for m with
        | none => simp [generate_redirect_step, hm, hl, htpl]
        | some tpl => simp [generate_redirect_step, hm, hl, htpl]
  · cases htpl : template_for m with
    | none =>
        refine ⟨{ title := "Navigate to " ++ m.required.pyStr
                  instruction := m.message
                  current_context := { type := m.type, value := m.current.pyStr }
                  required_context := { type := m.type, value := m.required.pyStr }
                  original_step_index := idx
                  reason := d.reason }, ?_, ?_, rfl, rfl, ?_, ?_⟩
        · simp [generate_redirect_step, hm, hl, htpl]
        · intro rest'
          simp [generate_redirect_step, hm, htpl]
        · intro _; rfl
        · intro tpl htpl'
          simp at htpl'
    | some tpl =>
        refine ⟨{ title := tpl.title
                  instruction := tpl.instruction
                  reference_image := tpl.reference_image
                  current_context := { type := m.type, value := m.current.pyStr }
                  required_context := { type := m.type, value := m.required.pyStr }
                  ui_animations := tpl.ui_animations
                  original_step_index := idx
                  reason := d.reason }, ?_, ?_, rfl, rfl, ?_, ?_⟩
        · simp [generate_redirect_step, hm, hl, htpl]
        · intro rest'
          simp [generate_redirect_step, hm, htpl]
        · intro htpl'
          simp at htpl'
        · intro tpl' htpl'
          cases htpl'
          exact ⟨rfl, rfl, rfl, rfl⟩

/-- A concrete unmatched MismatchDetails whose required environment "Plastic"
has no entry in the template table. -/
def plasticMismatchDetails : MismatchDetails :=
  { matched := false
    current := { workspace := .DESIGN, environment := .SOLID,
                 has_active_document := true, has_active_sketch := false }
    required := { environment := some "Plastic" }
    mismatches := [{ type := "environment", current := .s "Solid", required := .s "Plastic",
                     message := "Switch from Solid to Plastic environment" }]
    reason := "This step requires a specific context" }

/-- Witness for claim C8: the Plastic mismatch has no template, yet the
generator still produces a redirect step. -/
theorem claim_C8_witness :
    (generate_redirect_step plasticMismatchDetails 3).isSome = true :=
  (claim_C8_redirect_generation plasticMismatchDetails 3 (by decide)).2.1 (by decide)

end RedirectTemplates

namespace ContextPoller

theorem start_polling_gen (st : PollerState) (req : ContextDetector.Requirement)
    (i : Option Nat) : (start_polling st req i).gen = st.gen + 1 := by
  unfold start_polling stop_polling
  cases i with
  | none => by_cases hp : st.polling <;> simp [hp]
  | some n => by_cases hp : st.polling <;> by_cases hn : n ≠ 0 <;> simp [hp, hn]

theorem start_polling_polling (st : PollerState) (req : ContextDetector.Requirement)
    (i : Option Nat) : (start_polling st req i).polling = true := by
  unfold start_polling stop_polling
  cases i with
  | none => by_cases hp : st.polling <;> simp [hp]
  | some n => by_cases hp : st.polling <;> by_cases hn : n ≠ 0 <;> simp [hp, hn]

/-- Trace invariant for the poller protocol: fired generations are strictly
increasing, bounded by the current generation, and strictly below it while a
poll is live (a live poll has not fired yet). -/
theorem runOps_invariant (ops : List PollOp) :
    ∀ (st : PollerState) (evs : List Nat),
      evs.Pairwise (· < ·) →
      (∀ e ∈ evs, e ≤ st.gen) →
      (st.polling = true → ∀ e ∈ evs, e < st.gen) →
      (evs ++ (runOps st ops).1).Pairwise (· < ·) ∧
      (∀ e ∈ evs ++ (runOps st ops).1, e ≤ (runOps st ops).2.gen) ∧
      ((runOps st ops).2.polling = true →
         ∀ e ∈ evs ++ (runOps st ops).1, e < (runOps st ops).2.gen) := by
  induction ops with
  | nil =>
      intro st evs hpw hle hlt
      simpa [runOps] using ⟨hpw, hle, hlt⟩
  | cons op rest ih =>
      intro st evs hpw hle hlt
      match op with
      | .start req i =>
          have h := ih (start_polling st req i) evs hpw
            (fun e he => le_trans (hle e he) (by rw [start_polling_gen]; omega))
            (fun _ e he => by
              rw [start_polling_gen]
              exact lt_of_le_of_lt (hle e he) (by omega))
          simpa [runOps, stepOp] using h
      | .stop =>
          have h := ih (stop_polling st) evs hpw
            (fun e he => hle e he)
            (fun hfalse => by simp [stop_polling] at hfalse)
          simpa [runOps, stepOp, stop_polling] using h
      | .tick ctx =>
          by_cases hp : st.polling
          · by_cases hm : ContextDetector.matches_requirements ctx st.required
            · -- the poll fires its generation and goes quiet
              have hlt' := hlt hp
              have hpw' : (evs ++ [st.gen]).Pairwise (· < ·) := by
                rw [List.pairwise_append]
                exact ⟨hpw, List.pairwise_singleton _ _,
                  fun a ha b hb => by
                    rw [List.mem_singleton] at hb
                    subst hb
                    exact hlt' a ha⟩
              have h := ih { st with polling := false } (evs ++ [st.gen]) hpw'
                (fun e he => by
                  rcases List.mem_append.mp he with h1 | h1
                  · exact hle e h1
                  · rw [List.mem_singleton] at h1; subst h1; exact le_refl _)
                (fun hfalse => by simp at hfalse)
              have hres :
                  runOps st (PollOp.tick ctx :: rest) =
                  ([st.gen] ++ (runOps { st with polling := false } rest).1,
                   (runOps { st with polling := false } rest).2) := by
                simp [runOps, stepOp, check_context, hp, hm]
              rw [hres]
              rw [show evs ++ ([st.gen] ++ (runOps { st with polling := false } rest).1) =
                  (evs ++ [st.gen]) ++ (runOps { st with polling := false } rest).1 by
                simp]
              exact h
            · have h := ih st evs hpw hle hlt
              simpa [runOps, stepOp, check_context, hp, hm] using h
          · have h := ih st evs hpw hle hlt
            have hp' : st.polling = false := by simpa using hp
            simpa [runOps, stepOp, check_context, hp'] using h

/-- Claim C7: along any sequential execution of poller operations
(`start_polling`, ticks, `stop_polling`) from a fresh manager, the fired
`on_matched` generations are strictly increasing in firing order — so each
poll's callback fires at most once, never again after its matching tick,
never after `stop_polling`, and never once a later `start_polling` has
superseded it (any later firing belongs to a strictly newer poll). -/
theorem claim_C7_on_matched_at_most_once (ops : List PollOp) :
    (runOps initState ops).1.Pairwise (· < ·) ∧
    ∀ g, (runOps initState ops).1.count g ≤ 1 := by
  have h := runOps_invariant ops initState [] (List.Pairwise.nil)
    (by intro e he; simp at he) (by intro _ e he; simp at he)
  rcases h with ⟨hpw, -, -⟩
  rw [List.nil_append] at hpw
  refine ⟨hpw, ?_⟩
  have hnodup : (runOps initState ops).1.Nodup :=
    hpw.imp (fun h => Nat.ne_of_lt h)
  intro g
  exact List.nodup_iff_count_le_one.mp hnodup g

end ContextPoller

namespace CompletionDetector

theorem collect_new_length (timeline : List TimelineEntity) (cmd : String) :
    ∀ (fuel i : Nat), i + fuel ≤ timeline.length →
      (collect_new timeline cmd i fuel).length = fuel := by
  intro fuel
  induction fuel with
  | zero => intro i _; simp [collect_new]
  | succ n ih =>
      intro i hle
      have hi : i < timeline.length := by omega
      have he : timeline.get? i = some (timeline.get ⟨i, hi⟩) := List.get?_eq_get hi
      simp only [collect_new, he]
      rw [List.length_cons, ih (i + 1) (by omega)]

theorem collect_new_get? (timeline : List TimelineEntity) (cmd : String) :
    ∀ (fuel i j : Nat), j < fuel → i + fuel ≤ timeline.length →
      (collect_new timeline cmd i fuel).get? j =
        (timeline.get? (i + j)).map (fun e => entry_event (i + j) e cmd) := by
  intro fuel
  induction fuel with
  | zero => intro i j hj; omega
  | succ n ih =>
      intro i j hj hle
      have hi : i < timeline.length := by omega
      have he : timeline.get? i = some (timeline.get ⟨i, hi⟩) := List.get?_eq_get hi
      simp only [collect_new, he]
      cases j with
      | zero =>
          simp only [Nat.add_zero]
          rw [he]
          simp
      | succ m =>
          rw [List.get?_cons_succ, ih (i + 1) m (by omega) (by omega)]
          norm_num [Nat.add_assoc, Nat.add_comm 1 m]

/-- Claim C3: on a command-terminated notification with an active design, if
the timeline grew by `k` entries then exactly `k` completion events are
emitted, one per newly appended entry in entry order (each built by
`entry_event`, i.e. classified through the static entity-type table with
`FEATURE_CREATED` as default), and the observed length advances; with no
growth, a recognized command id yields exactly the single
`COMMAND_TERMINATED` event and an unrecognized one yields nothing, the
observed length staying put in both cases. -/
theorem claim_C3_timeline_events (last : Nat) (timeline : List TimelineEntity) (cmd : String) :
    (∀ k, timeline.length = last + k → 0 < k →
       (notify last timeline cmd).1.length = k ∧
       (notify last timeline cmd).2 = timeline.length ∧
       ∀ j, j < k →
         (notify last timeline cmd).1.get? j =
           (timeline.get? (last + j)).map (fun e => entry_event (last + j) e cmd)) ∧
    (timeline.length ≤ last → (COMMAND_MAP.lookup cmd).isSome = true →
       (notify last timeline cmd).1 = [terminated_event cmd] ∧
       (notify last timeline cmd).2 = last) ∧
    (timeline.length ≤ last → (COMMAND_MAP.lookup cmd).isSome = false →
       (notify last timeline cmd).1 = [] ∧
       (notify last timeline cmd).2 = last) := by
  refine ⟨?_, ?_, ?_⟩
  · intro k hk hkpos
    have hlt : last < timeline.length := by omega
    have hsub : timeline.length - last = k := by omega
    refine ⟨?_, ?_, ?_⟩
    · simp only [notify, if_pos hlt, hsub]
      exact collect_new_length timeline cmd k last (by omega)
    · simp [notify, hlt]
    · intro j hj
      simp only [notify, if_pos hlt, hsub]
      exact collect_new_get? timeline cmd k last j hj (by omega)
  · intro hle hcmd
    have hnlt : ¬ last < timeline.length := by omega
    simp [notify, hnlt, hcmd]
  · intro hle hcmd
    have hnlt : ¬ last < timeline.length := by omega
    simp [notify, hnlt, hcmd]

/-- A three-entry timeline whose last two entries were appended since the
last observation. -/
def timelineC3 : List TimelineEntity :=
  [{ type_name := "Sketch", name := some "Sketch1" },
   { type_name := "ExtrudeFeature", name := some "Extrude1", healthy := some true },
   { type_name := "MirrorFeature", name := some "Mirror1", healthy := some true }]

/-- Witness for claim C3: growth by two entries emits exactly the two
classified events in order (the unmapped MirrorFeature falling back to the
generic feature event), and without growth a known command emits one
terminate event while an unknown one emits none. -/
theorem claim_C3_witness :
    ((notify 1 timelineC3 "Extrude").1.length = 2 ∧
     (notify 1 timelineC3 "Extrude").1.get? 1 =
       (timelineC3.get? 2).map (fun e => entry_event 2 e "Extrude")) ∧
    (notify 3 timelineC3 "SketchLine").1 = [terminated_event "SketchLine"] ∧
    (notify 3 timelineC3 "NotACommand").1 = [] := by
  refine ⟨⟨?_, ?_⟩, ?_, ?_⟩
  · exact ((claim_C3_timeline_events 1 timelineC3 "Extrude").1 2 (by decide) (by decide)).1
  · exact ((claim_C3_timeline_events 1 timelineC3 "Extrude").1 2 (by decide)
      (by decide)).2.2 1 (by decide)
  · exact ((claim_C3_timeline_events 3 timelineC3 "SketchLine").2.1 (by decide) (by decide)).1
  · exact ((claim_C3_timeline_events 3 timelineC3 "NotACommand").2.2 (by decide) (by decide)).1

end CompletionDetector

namespace CoreTM

open TutorialData

/-- Claim C5: with a loaded tutorial of N steps, `go_to_step` inside
`[0, N-1]` moves the cursor to exactly that index, out-of-range requests
leave the state untouched, `next_step` at the last index is a no-op that
still returns the last step's payload, and `prev_step` at index 0 is a no-op
that still returns the first step's payload. -/
theorem claim_C5_clamp_semantics (t : Tutorial) (st : State)
    (ht : st.current_tutorial = some t) :
    (∀ i : Int, 0 ≤ i → i < (t.steps.length : Int) →
       (go_to_step st i).2.current_step_index = i.toNat ∧
       (go_to_step st i).2.current_tutorial = some t) ∧
    (∀ i : Int, i < 0 ∨ (t.steps.length : Int) ≤ i → (go_to_step st i).2 = st) ∧
    (st.current_step_index = t.steps.length - 1 →
       (next_step st).2 = st ∧
       (next_step st).1 = get_current_step_payload st ∧
       ∀ s, t.steps.get? (t.steps.length - 1) = some s →
         (next_step st).1 = some { step := s, currentIndex := t.steps.length - 1,
                                   totalSteps := t.steps.length, tutorialTitle := t.title }) ∧
    (st.current_step_index = 0 →
       (prev_step st).2 = st ∧
       (prev_step st).1 = get_current_step_payload st ∧
       ∀ s, t.steps.get? 0 = some s →
         (prev_step st).1 = some { step := s, currentIndex := 0,
                                   totalSteps := t.steps.length, tutorialTitle := t.title }) := by
  refine ⟨?_, ?_, ?_, ?_⟩
  · intro i h0 hN
    have hcond : 0 ≤ i ∧ i < ((t.steps.length : Int)) := ⟨h0, hN⟩
    simp [go_to_step, ht, hcond]
  · intro i hout
    have hcond : ¬ (0 ≤ i ∧ i < ((t.steps.length : Int))) := by omega
    simp [go_to_step, ht, hcond]
  · intro hlast
    have hcond : ¬ (st.current_step_index < t.steps.length - 1) := by omega
    refine ⟨by simp [next_step, ht, hcond], by simp [next_step, ht, hcond], ?_⟩
    intro s hs
    rw [List.get?_eq_getElem?] at hs
    simp [next_step, ht, hcond, get_current_step_payload, hlast, hs]
  · intro h0
    have hcond : ¬ (st.current_step_index > 0) := by omega
    refine ⟨by simp [prev_step, hcond], by simp [prev_step, hcond], ?_⟩
    intro s hs
    rw [List.get?_eq_getElem?] at hs
    simp [prev_step, hcond, get_current_step_payload, ht, h0, hs]

/-- A three-step tutorial used by the cursor witnesses. -/
def tutorialW : Tutorial :=
  { tutorial_id := "w"
    title := "Witness Tutorial"
    steps := [{ step_id := "s0", step_number := 1 },
              { step_id := "s1", step_number := 2 },
              { step_id := "s2", step_number := 3 }] }

/-- Witness for claim C5 on a concrete three-step tutorial: in-range goTo
moves, out-of-range goTo is ignored, and next at the last index returns the
last step's payload without moving. -/
theorem claim_C5_witness :
    (go_to_step { current_tutorial := some tutorialW, current_step_index := 0 } 2).2.current_step_index = 2 ∧
    (go_to_step { current_tutorial := some tutorialW, current_step_index := 0 } 5).2 =
      { current_tutorial := some tutorialW, current_step_index := 0 } ∧
    (next_step { current_tutorial := some tutorialW, current_step_index := 2 }).2 =
      { current_tutorial := some tutorialW, current_step_index := 2 } := by
  refine ⟨?_, ?_, ?_⟩
  · exact ((claim_C5_clamp_semantics tutorialW
      { current_tutorial := some tutorialW, current_step_index := 0 } rfl).1 2
      (by decide) (by decide)).1
  · exact (claim_C5_clamp_semantics tutorialW
      { current_tutorial := some tutorialW, current_step_index := 0 } rfl).2.1 5
      (by decide)
  · exact ((claim_C5_clamp_semantics tutorialW
      { current_tutorial := some tutorialW, current_step_index := 2 } rfl).2.2.1
      (by decide)).1

/-- One mutator keeps the cursor below `max totalSteps 1`: the clamp guards
only ever move it to 0, to an in-range index, or by one step inside range. -/
theorem cursor_invariant_step (st : State) (op : Op)
    (h : st.current_step_index < max (totalStepsOf st) 1) :
    (applyOp st op).current_step_index < max (totalStepsOf (applyOp st op)) 1 := by
  cases op with
  | load d => simp [applyOp, load_tutorial, totalStepsOf]
  | next =>
      cases htut : st.current_tutorial with
      | none => simpa [applyOp, next_step, htut, totalStepsOf] using
          (by simpa [totalStepsOf, htut] using h)
      | some t =>
          by_cases hc : st.current_step_index < t.steps.length - 1
          · simp only [applyOp, next_step, htut, if_pos hc, totalStepsOf]
            omega
          · simp only [applyOp, next_step, htut, if_neg hc, totalStepsOf]
            simpa [totalStepsOf, htut] using h
  | prev =>
      by_cases hc : st.current_step_index > 0
      · have hidx : (applyOp st .prev).current_step_index = st.current_step_index - 1 := by
          simp [applyOp, prev_step, hc]
        have htot : totalStepsOf (applyOp st .prev) = totalStepsOf st := by
          simp [applyOp, prev_step, hc, totalStepsOf]
        rw [hidx, htot]
        omega
      · simpa [applyOp, prev_step, hc] using h
  | goTo i =>
      cases htut : st.current_tutorial with
      | none => simpa [applyOp, go_to_step, htut, totalStepsOf] using
          (by simpa [totalStepsOf, htut] using h)
      | some t =>
          by_cases hc : 0 ≤ i ∧ i < ((t.steps.length : Int))
          · simp only [applyOp, go_to_step, htut, if_pos hc, totalStepsOf]
            omega
          · simp only [applyOp, go_to_step, htut, if_neg hc, totalStepsOf]
            simpa [totalStepsOf, htut] using h

/-- The invariant is preserved along any mutator sequence. -/
theorem cursor_invariant_runOps (ops : List Op) :
    ∀ st : State, st.current_step_index < max (totalStepsOf st) 1 →
      (runOps st ops).current_step_index < max (totalStepsOf (runOps st ops)) 1 := by
  induction ops with
  | nil => intro st h; simpa [runOps] using h
  | cons op rest ih =>
      intro st h
      have h1 := cursor_invariant_step st op h
      simpa [runOps] using ih (applyOp st op) h1

/-- Claim C10: starting from a freshly loaded tutorial (which pins the cursor
to 0, also for an empty steps list), every sequence of load/next/prev/goTo
mutators keeps the cursor inside `[0, totalSteps-1]` whenever the loaded
tutorial is non-empty, and at 0 when it is empty — i.e. always strictly below
`max totalSteps 1`. -/
theorem claim_C10_cursor_in_range (d : Tutorial) (ops : List Op) :
    (applyOp initState (.load d)).current_step_index = 0 ∧
    (runOps (applyOp initState (.load d)) ops).current_step_index <
      max (totalStepsOf (runOps (applyOp initState (.load d)) ops)) 1 := by
  constructor
  · simp [applyOp, load_tutorial, initState]
  · exact cursor_invariant_runOps ops _ (by simp [applyOp, load_tutorial, totalStepsOf, initState])

end CoreTM

namespace TutorialData

/-- Counterexample to claim C9 as stated: the runtime `TutorialManager` in
FusionTutorialOverlay.py opens the requested file with no existence check, so
on a file system with no files `load_from_file("missing_tutorial.json")`
raises `FileNotFoundError` to its caller instead of returning null. -/
theorem claim_C9_counterexample :
    OverlayTM.load_from_file (fun _ => none) OverlayTM.initState "missing_tutorial.json" =
      Except.error "FileNotFoundError" := rfl

/-- Claim C9 (amended): `load_from_file` of the core `TutorialManager`
(core/tutorial_manager.py) returns null for a non-existent path and leaves the
previously loaded tutorial and cursor untouched; the duplicate runtime
`TutorialManager` inside FusionTutorialOverlay.py instead raises
`FileNotFoundError` (its caller pre-checks `os.path.exists`, keeping its own
state untouched too). -/
theorem claim_C9_load_from_file_missing (fs : FileSystem) (stc : CoreTM.State)
    (sto : OverlayTM.State) (p : String) (h : fs p = none) :
    CoreTM.load_from_file fs stc p = (none, stc) ∧
    OverlayTM.load_from_file fs sto p = Except.error "FileNotFoundError" := by
  constructor
  · simp [CoreTM.load_from_file, h]
  · simp [OverlayTM.load_from_file, h]

/-- Witness for claim C9 at a concrete empty file system and fresh managers. -/
theorem claim_C9_witness :
    CoreTM.load_from_file (fun _ => none) CoreTM.initState "tutorial.json" =
      (none, CoreTM.initState) ∧
    OverlayTM.load_from_file (fun _ => none) OverlayTM.initState "tutorial.json" =
      Except.error "FileNotFoundError" :=
  claim_C9_load_from_file_missing (fun _ => none) CoreTM.initState OverlayTM.initState
    "tutorial.json" rfl

end TutorialData

namespace ContextPoller

theorem start_polling_required (st : PollerState) (req : ContextDetector.Requirement)
    (i : Option Nat) : (start_polling st req i).required = req := by
  unfold start_polling stop_polling
  cases i with
  | none => by_cases hp : st.polling <;> simp [hp]
  | some n => by_cases hp : st.polling <;> by_cases hn : n ≠ 0 <;> simp [hp, hn]

theorem start_polling_interval_pos (st : PollerState) (req : ContextDetector.Requirement)
    (n : Nat) (hn : n ≠ 0) : (start_polling st req (some n)).interval_ms = n := by
  unfold start_polling stop_polling
  by_cases hp : st.polling <;> simp [hp, hn]

end ContextPoller

namespace Coordinator

open ContextDetector TutorialData

/-- Claim C6: a navigation request whose resolved target index falls outside
`[0, totalSteps-1]` returns the structured Invalid-Index error and mutates
nothing: no palette message is sent and the tutorial manager and poller
states are returned exactly as they were. -/
theorem claim_C6_invalid_index_no_mutation (tm : OverlayTM.State)
    (poller : ContextPoller.PollerState) (ctx : FusionContext) (dir : NavDir)
    (t : Tutorial) (ht : tm.current_tutorial = some t)
    (hout : navTarget tm dir < 0 ∨ (t.steps.length : Int) ≤ navTarget tm dir) :
    handle_navigation tm poller ctx dir =
      { sent := [], response := .error "Invalid step index", tm := tm, poller := poller } := by
  simp [handle_navigation, ht, hout]

/-- Witness for claim C6: `goToStep 7` against a loaded three-step tutorial is
rejected with no state change (the poller here is mid-poll and stays so). -/
theorem claim_C6_witness :
    handle_navigation
      { current_tutorial := some CoreTM.tutorialW, current_step_index := 1, total_steps := 3 }
      { polling := true, required := { environment := some "Sketch" },
        interval_ms := 1000, gen := 4 }
      { workspace := .DESIGN, environment := .SOLID,
        has_active_document := true, has_active_sketch := false }
      (.goToStep 7) =
      { sent := []
        response := .error "Invalid step index"
        tm := { current_tutorial := some CoreTM.tutorialW, current_step_index := 1,
                total_steps := 3 }
        poller := { polling := true, required := { environment := some "Sketch" },
                    interval_ms := 1000, gen := 4 } } :=
  claim_C6_invalid_index_no_mutation _ _ _ _ CoreTM.tutorialW rfl (by right; decide)

end Coordinator

namespace Coordinator

open ContextDetector TutorialData

/-- For an in-range target, the cursor move lands exactly on the target index
and touches neither the loaded tutorial nor the cached step total; the
returned payload is the accessor applied to the updated state. -/
theorem navStep_fields (tm : OverlayTM.State) (dir : NavDir) (t : Tutorial)
    (ht : tm.current_tutorial = some t) (hwf : tm.total_steps = t.steps.length)
    (hin0 : 0 ≤ navTarget tm dir) (hinN : navTarget tm dir < (t.steps.length : Int)) :
    (navStep tm dir).2.current_step_index = (navTarget tm dir).toNat ∧
    (navStep tm dir).2.current_tutorial = some t ∧
    (navStep tm dir).2.total_steps = tm.total_steps ∧
    (navStep tm dir).1 = OverlayTM.get_current_step (navStep tm dir).2 := by
  cases dir with
  | next =>
      simp only [navTarget] at hin0 hinN ⊢
      have hc : tm.current_step_index < tm.total_steps - 1 := by omega
      refine ⟨?_, ?_, ?_, ?_⟩
      · simp only [navStep, OverlayTM.next_step, if_pos hc]
        omega
      · simp [navStep, OverlayTM.next_step, hc, ht]
      · simp [navStep, OverlayTM.next_step, hc]
      · simp [navStep, OverlayTM.next_step]
  | prev =>
      simp only [navTarget] at hin0 hinN ⊢
      have hc : tm.current_step_index > 0 := by omega
      refine ⟨?_, ?_, ?_, ?_⟩
      · simp only [navStep, OverlayTM.prev_step, if_pos hc]
        omega
      · simp [navStep, OverlayTM.prev_step, hc, ht]
      · simp [navStep, OverlayTM.prev_step, hc]
      · simp [navStep, OverlayTM.prev_step]
  | goToStep i =>
      simp only [navTarget] at hin0 hinN ⊢
      have hc : 0 ≤ i ∧ i < ((tm.total_steps : Nat) : Int) := by
        constructor <;> omega
      refine ⟨?_, ?_, ?_, ?_⟩
      · simp only [navStep, OverlayTM.go_to_step, if_pos hc]
      · simp [navStep, OverlayTM.go_to_step, hc, ht]
      · simp [navStep, OverlayTM.go_to_step, hc]
      · simp [navStep, OverlayTM.go_to_step]

/-- Claim C1: for an in-range navigation target whose step declares a
non-empty `requires` unsatisfied by the fresh context snapshot, the
coordinator sends exactly one `contextWarning` message carrying the mismatch
details and the target index, starts the context poller on that requirement
at the 1000ms warning cadence, and still moves the cursor to the target,
returning a successful `updateStep` payload for it — the mismatch never
blocks navigation. -/
theorem claim_C1_mismatch_warns_and_proceeds (tm : OverlayTM.State)
    (poller : ContextPoller.PollerState) (ctx : FusionContext) (dir : NavDir)
    (t : Tutorial) (tstep : TutorialStep)
    (ht : tm.current_tutorial = some t)
    (hwf : tm.total_steps = t.steps.length)
    (hin0 : 0 ≤ navTarget tm dir)
    (hinN : navTarget tm dir < (t.steps.length : Int))
    (hstep : t.steps.get? (navTarget tm dir).toNat = some tstep)
    (hreq : tstep.requires ≠ Requirement.empty)
    (hmm : matches_requirements ctx tstep.requires = false) :
    (handle_navigation tm poller ctx dir).sent =
      [.contextWarning (get_mismatch_details ctx tstep.requires) (navTarget tm dir)] ∧
    (handle_navigation tm poller ctx dir).poller.polling = true ∧
    (handle_navigation tm poller ctx dir).poller.required = tstep.requires ∧
    (handle_navigation tm poller ctx dir).poller.interval_ms = 1000 ∧
    (handle_navigation tm poller ctx dir).tm.current_step_index = (navTarget tm dir).toNat ∧
    (handle_navigation tm poller ctx dir).tm.current_tutorial = some t ∧
    (handle_navigation tm poller ctx dir).response =
      .updateStep { step := tstep, currentIndex := (navTarget tm dir).toNat,
                    totalSteps := tm.total_steps, tutorialTitle := t.title } := by
  have hcond : ¬ (navTarget tm dir < 0 ∨ (t.steps.length : Int) ≤ navTarget tm dir) := by
    omega
  have hstep' : t.steps[(navTarget tm dir).toNat]? = some tstep := by
    rw [← List.get?_eq_getElem?]; exact hstep
  have hwarn : (!(tstep.requires == Requirement.empty) &&
      !(matches_requirements ctx tstep.requires)) = true := by
    simp [hmm, hreq]
  obtain ⟨hidx, htut, htot, hfst⟩ := navStep_fields tm dir t ht hwf hin0 hinN
  have hpay : (navStep tm dir).1 =
      some { step := tstep, currentIndex := (navTarget tm dir).toNat,
             totalSteps := tm.total_steps, tutorialTitle := t.title } := by
    rw [hfst]
    simp only [OverlayTM.get_current_step, htut, hidx, htot, hstep]
  have hmain : handle_navigation tm poller ctx dir =
      { sent := [.contextWarning (get_mismatch_details ctx tstep.requires) (navTarget tm dir)]
        response := .updateStep { step := tstep, currentIndex := (navTarget tm dir).toNat,
                                  totalSteps := tm.total_steps, tutorialTitle := t.title }
        tm := (navStep tm dir).2
        poller := ContextPoller.start_polling
          (if poller.polling then ContextPoller.stop_polling poller else poller)
          tstep.requires (some 1000) } := by
    simp [handle_navigation, ht, hcond, hstep', hwarn, hpay]
  rw [hmain]
  refine ⟨rfl, ?_, ?_, ?_, hidx, htut, rfl⟩
  · exact ContextPoller.start_polling_polling _ _ _
  · exact ContextPoller.start_polling_required _ _ _
  · exact ContextPoller.start_polling_interval_pos _ _ 1000 (by omega)

end Coordinator

namespace Coordinator

open ContextDetector TutorialData

/-- Step 1 of the witness tutorial: requires the Sketch environment. -/
def stepC1 : TutorialStep :=
  { step_id := "s1", step_number := 2, requires := { environment := some "Sketch" } }

/-- The witness tutorial of the spec scenario: three steps, the middle one
context-gated on Sketch. -/
def tutorialC1 : Tutorial :=
  { tutorial_id := "c1", title := "Scenario"
    steps := [{ step_id := "s0", step_number := 1 }, stepC1,
              { step_id := "s2", step_number := 3 }] }

/-- The manager state with the scenario tutorial loaded at step 0. -/
def tmC1 : OverlayTM.State :=
  { current_tutorial := some tutorialC1, current_step_index := 0, total_steps := 3 }

/-- A Solid-environment snapshot that violates the Sketch requirement. -/
def ctxC1 : FusionContext :=
  { workspace := .DESIGN, environment := .SOLID,
    has_active_document := true, has_active_sketch := false }

/-- Witness for claim C1, instantiating the spec scenario: goToStep 1 against
a Solid snapshot emits the contextWarning whose first mismatch is of type
"environment", still moves the cursor to index 1, and leaves the poller
polling for the Sketch requirement. -/
theorem claim_C1_witness :
    (handle_navigation tmC1 ContextPoller.initState ctxC1 (.goToStep 1)).sent =
      [.contextWarning (get_mismatch_details ctxC1 stepC1.requires) 1] ∧
    ((get_mismatch_details ctxC1 stepC1.requires).mismatches.head?.map Mismatch.type =
      some "environment") ∧
    (handle_navigation tmC1 ContextPoller.initState ctxC1 (.goToStep 1)).tm.current_step_index = 1 ∧
    (handle_navigation tmC1 ContextPoller.initState ctxC1 (.goToStep 1)).poller.required =
      stepC1.requires ∧
    (handle_navigation tmC1 ContextPoller.initState ctxC1 (.goToStep 1)).poller.polling = true := by
  have h := claim_C1_mismatch_warns_and_proceeds tmC1 ContextPoller.initState ctxC1
    (.goToStep 1) tutorialC1 stepC1 rfl rfl (by decide) (by decide) rfl (by decide) (by decide)
  exact ⟨h.1, by decide, h.2.2.2.2.1, h.2.2.1, h.2.1⟩

end Coordinator
